import Mathlib

/-!
# Vibs: inertial sensor streamer

A shallow embedding of the two ESP32 server programs of the repository:

* `src/server_tcp.Raw_Threads.cpp` (namespace `Tcp`): the connection-oriented
  streamer with its sampler task, network task and throughput reporter;
* `src/main_server.cpp` (namespace `Udp`): the connectionless streamer with
  discovery handshake and batched text framing.

Machine integers are `Nat`/`Int` with explicit wrap-around; everything the
program reads from its surroundings (clock, socket state, sensor bus) is an
explicit input of the step functions.
-/

/-! ## Machine arithmetic shared by both programs -/

/-- Two to the power 32, the modulus of `uint32_t` and of `unsigned long` on the ESP32. -/
def U32 : Nat := 4294967296

/-- Unsigned 32-bit subtraction `a - b`, wrapping modulo 2^32. -/
def sub32 (a b : Nat) : Nat := (((a : Int) - (b : Int)) % 4294967296).toNat

/-- Unsigned 32-bit addition of an unsigned and a signed operand: the signed one is
converted to unsigned and the sum wraps modulo 2^32 (usual arithmetic conversions). -/
def addU32 (a : Nat) (b : Int) : Nat := (((a : Int) + b) % 4294967296).toNat

/-- Conversion of an integer value to `int32_t` (two's complement wrap-around). -/
def toInt32 (x : Int) : Int := (x + 2147483648) % 4294967296 - 2147483648

/-- Byte number `i` of the little-endian two's complement object representation of `v`. -/
def leByte (v : Int) (i : Nat) : Nat := ((v / 256 ^ i) % 256).toNat

namespace Tcp

/-! ## `server_tcp.Raw_Threads.cpp` -/

/-- The global `int packetSize = 22;` (never assigned after initialisation). -/
def packetSize : Int := 22

/-- The macro `CAPTURES_PER_PACKET`. -/
def CAPTURES_PER_PACKET : Int := 100

/-- Number of elements of `uint8_t dataBuffer[2200]`. -/
def BUFFER_SIZE : Nat := 2200

/-- The globals of the program. `client` tells whether the `WiFiClient` object holds a
socket; `dataBuffer` maps an index below `BUFFER_SIZE` to the byte stored there. -/
structure State where
  AcX : Int
  AcY : Int
  AcZ : Int
  GyX : Int
  GyY : Int
  GyZ : Int
  client : Bool
  dataBuffer : Nat → Nat
  captureCount : Nat
  sendCount : Nat
  lastReportTime : Nat
  lastCPS : Nat
  lastSent : Nat
  captureIndex : Int

/-- What one call of `sendData` reads from its surroundings: the answer of
`client.connected()`, the value of `micros()` and the return value of `client.write`. -/
structure SendEnv where
  connected : Bool
  micros : Nat
  written : Nat

/-- The buffer with the `n` low bytes of `v` stored from index `off` on, lowest first. -/
def store (buf : Nat → Nat) (off : Nat) (v : Int) (n : Nat) : Nat → Nat :=
  fun i => if off ≤ i ∧ i < off + n then leByte v (i - off) else buf i

/-- The call `memcpy(dataBuffer + off, &v, n)` on a little-endian machine. A copy that
would leave the array has no defined behaviour and is reported as `none`. -/
def memcpy (buf : Nat → Nat) (off : Int) (v : Int) (n : Nat) : Option (Nat → Nat) :=
  if 0 ≤ off ∧ off + (n : Int) ≤ (BUFFER_SIZE : Int) then some (store buf off.toNat v n)
  else none

/-- The first `n` bytes of the buffer, as handed to `client.write(dataBuffer, n)`. -/
def bufferBytes (buf : Nat → Nat) (n : Nat) : List Nat := (List.range n).map buf

/-- The function `sendData`. The result is the new state together with the payloads
passed to `client.write`, in order. -/
def sendData (s : State) (e : SendEnv) : Option (State × List (List Nat)) :=
  if !s.client || !e.connected then some (s, [])
  else do
    let offset := s.captureIndex * packetSize
    let b ← memcpy s.dataBuffer offset s.GyX 2
    let b ← memcpy b (offset + 2) s.GyY 2
    let b ← memcpy b (offset + 4) s.GyZ 2
    let b ← memcpy b (offset + 6) s.AcX 2
    let b ← memcpy b (offset + 8) s.AcY 2
    let b ← memcpy b (offset + 10) s.AcZ 2
    let timestamp := e.micros
    let cpsValue := s.lastCPS
    let b ← memcpy b (offset + 12) (timestamp : Int) 4
    let b ← memcpy b (offset + 16) (cpsValue : Int) 4
    let b ← memcpy b (offset + 20) s.captureIndex 2
    let captureIndex := s.captureIndex + 1
    if captureIndex = CAPTURES_PER_PACKET then
      let payload := bufferBytes b (CAPTURES_PER_PACKET * packetSize).toNat
      if e.written ≠ (CAPTURES_PER_PACKET * packetSize).toNat then
        some ({ s with dataBuffer := b, captureIndex := 0 }, [payload])
      else
        some ({ s with dataBuffer := b, sendCount := (s.sendCount + 1) % U32,
                       captureIndex := 0 }, [payload])
    else
      some ({ s with dataBuffer := b, captureIndex := captureIndex }, [])

/-- Value of a signed 16-bit field read back from its two little-endian bytes. -/
def decodeI16 (b0 b1 : Nat) : Int :=
  if b0 + 256 * b1 < 32768 then ((b0 + 256 * b1 : Nat) : Int)
  else ((b0 + 256 * b1 : Nat) : Int) - 65536

/-- Value of an unsigned 16-bit field read back from its two little-endian bytes. -/
def decodeU16 (b0 b1 : Nat) : Nat := b0 + 256 * b1

/-- Value of an unsigned 32-bit field read back from its four little-endian bytes. -/
def decodeU32 (b0 b1 b2 b3 : Nat) : Nat := b0 + 256 * b1 + 65536 * b2 + 16777216 * b3

/-- The buffer after the nine copies of `sendData` when the capture index is `k`. -/
def framed (s : State) (e : SendEnv) (k : Nat) : Nat → Nat := fun i =>
  if 22 * k ≤ i ∧ i < 22 * k + 22 then
    (if i < 22 * k + 2 then leByte s.GyX (i - 22 * k)
     else if i < 22 * k + 4 then leByte s.GyY (i - (22 * k + 2))
     else if i < 22 * k + 6 then leByte s.GyZ (i - (22 * k + 4))
     else if i < 22 * k + 8 then leByte s.AcX (i - (22 * k + 6))
     else if i < 22 * k + 10 then leByte s.AcY (i - (22 * k + 8))
     else if i < 22 * k + 12 then leByte s.AcZ (i - (22 * k + 10))
     else if i < 22 * k + 16 then leByte (e.micros : Int) (i - (22 * k + 12))
     else if i < 22 * k + 20 then leByte (s.lastCPS : Int) (i - (22 * k + 16))
     else leByte (k : Int) (i - (22 * k + 20)))
  else s.dataBuffer i

/-- What one iteration of `networkTask` reads from its surroundings: the answer of
`client.connected()` in its own test, whether `server.available()` hands over a client,
and the inputs of the `sendData` call. -/
structure NetEnv where
  alive : Bool
  available : Bool
  send : SendEnv

/-- One iteration of the `while (1)` loop of `networkTask`. The closing busy-wait of
50 microseconds changes no variable. -/
def networkTask_iter (s : State) (e : NetEnv) : Option (State × List (List Nat)) :=
  if !s.client || !e.alive then
    some ({ s with client := e.available }, [])
  else
    sendData s e.send

/-- The values the other two tasks (`sensorTask`, `loop`) have left in the globals they
write when an iteration of `networkTask` begins. -/
structure Shared where
  AcX : Int
  AcY : Int
  AcZ : Int
  GyX : Int
  GyY : Int
  GyZ : Int
  captureCount : Nat
  sendCount : Nat
  lastReportTime : Nat
  lastCPS : Nat
  lastSent : Nat

/-- The state an iteration of `networkTask` starts from: the variables only this task
writes (`client`, `dataBuffer`, `captureIndex`) are as it left them, the others are as
the other tasks left them. -/
def interfere (s : State) (o : Shared) : State :=
  { AcX := o.AcX, AcY := o.AcY, AcZ := o.AcZ, GyX := o.GyX, GyY := o.GyY, GyZ := o.GyZ
    client := s.client
    dataBuffer := s.dataBuffer
    captureCount := o.captureCount
    sendCount := o.sendCount
    lastReportTime := o.lastReportTime
    lastCPS := o.lastCPS
    lastSent := o.lastSent
    captureIndex := s.captureIndex }

/-- A finite run of `networkTask`: one iteration per list element, collecting the
payloads passed to `client.write`. -/
def networkTask : State → List (Shared × NetEnv) → Option (State × List (List Nat))
  | s, [] => some (s, [])
  | s, (o, e) :: rest =>
    match networkTask_iter (interfere s o) e with
    | none => none
    | some (s1, w1) =>
      match networkTask s1 rest with
      | none => none
      | some (s2, w2) => some (s2, w1 ++ w2)

/-- The globals as initialised at program start. -/
def initState : State :=
  { AcX := 0, AcY := 0, AcZ := 0, GyX := 0, GyY := 0, GyZ := 0
    client := false
    dataBuffer := fun _ => 0
    captureCount := 0
    sendCount := 0
    lastReportTime := 0
    lastCPS := 0
    lastSent := 0
    captureIndex := 0 }

/-- One pass of `loop()`, the throughput reporter, reading `micros()` once. -/
def loop (s : State) (micros : Nat) : State :=
  let currentTime := micros / 1000
  if sub32 currentTime s.lastReportTime ≥ 3000 then
    { s with
      lastCPS := s.captureCount / 3
      lastSent := s.sendCount / 3
      captureCount := 0
      sendCount := 0
      lastReportTime := currentTime }
  else s

/-- The locals of `sensorTask` that live across iterations. -/
structure Sampler where
  lastTime : Nat
  errorSum : Int

/-- The constant `targetInterval` of `sensorTask`. -/
def targetInterval : Nat := 250

/-- The body of the `while (1)` loop of `sensorTask` up to the busy-wait, for the
reading `startTime` of `micros()`: the new locals, the local `correction`, and the
right-hand side of the busy-wait comparison, `targetInterval + correction`, which C
evaluates in `uint32_t`. The sensor read and `captureCount++` touch globals only. -/
def sensorTask_iter (st : Sampler) (startTime : Nat) : Sampler × Int × Nat :=
  let elapsedTime := sub32 startTime st.lastTime
  let lastTime := startTime
  let error := toInt32 (sub32 targetInterval elapsedTime)
  let errorSum := toInt32 (st.errorSum + error)
  let correction := toInt32 (error + Int.tdiv errorSum 1000)
  ({ lastTime := lastTime, errorSum := errorSum }, correction, addU32 targetInterval correction)

/-- The busy-wait condition `micros() - startTime < (targetInterval + correction)` for a
reading `now` of `micros()`; `limit` is the right-hand side as computed by
`sensorTask_iter`. -/
def waitCondition (now startTime limit : Nat) : Bool :=
  decide (sub32 now startTime < limit)

/-- The busy-wait loop of `sensorTask` over the successive readings of `micros()`: the
number of times the empty body runs before the condition is found false (or the
readings are used up). -/
def busyWait (startTime limit : Nat) : List Nat → Nat
  | [] => 0
  | now :: rest => if waitCondition now startTime limit then busyWait startTime limit rest + 1 else 0

/-- A run of `sensorTask` from given locals over the successive values of `startTime`. -/
def sensorTask (st : Sampler) : List Nat → Sampler
  | [] => st
  | startTime :: rest => sensorTask (sensorTask_iter st startTime).1 rest

/-- The state `sendData` leaves behind when it frames record `k`. -/
def afterSend (s : State) (e : SendEnv) (k : Nat) : State :=
  { s with
    dataBuffer := framed s e k
    sendCount := if k = 99 ∧ e.written = 2200 then (s.sendCount + 1) % U32 else s.sendCount
    captureIndex := if k = 99 then 0 else (k : Int) + 1 }

/-- Invariant of the network task: `captureIndex` is some `k < 100` and the records
below `k` carry their own number in the sequence field. -/
def RecordsOk (s : State) : Prop :=
  ∃ k : Nat, s.captureIndex = (k : Int) ∧ k < 100 ∧
    ∀ j, j < k → decodeU16 (s.dataBuffer (22 * j + 20)) (s.dataBuffer (22 * j + 21)) = j

/-- A payload of 2200 bytes made of 100 records whose sequence fields are 0, 1, ..., 99. -/
def WholePacket (w : List Nat) : Prop :=
  w.length = 2200 ∧
    ∀ j, j < 100 → decodeU16 (w.getD (22 * j + 20) 0) (w.getD (22 * j + 21) 0) = j

/-! ### The two tasks side by side

`setup` pins `sensorTask` to core 0 and `networkTask` to core 1. `readMPU6050` assigns
the six sensor globals one statement at a time and `sendData` copies them one `memcpy`
at a time; the program has no lock or other synchronisation between them. The steps of
the two tasks are interleaved here by an explicit schedule. -/

/-- Names of the six sensor globals. -/
inductive Field where
  | AcX | AcY | AcZ | GyX | GyY | GyZ
deriving DecidableEq

/-- The six sensor globals, also used for the six values of one capture. -/
structure Sensors where
  AcX : Int
  AcY : Int
  AcZ : Int
  GyX : Int
  GyY : Int
  GyZ : Int
deriving DecidableEq

/-- Assignment to one sensor global. -/
def Sensors.write (m : Sensors) (f : Field) (v : Int) : Sensors :=
  match f with
  | .AcX => { m with AcX := v }
  | .AcY => { m with AcY := v }
  | .AcZ => { m with AcZ := v }
  | .GyX => { m with GyX := v }
  | .GyY => { m with GyY := v }
  | .GyZ => { m with GyZ := v }

/-- Read of one sensor global. -/
def Sensors.read (m : Sensors) (f : Field) : Int :=
  match f with
  | .AcX => m.AcX
  | .AcY => m.AcY
  | .AcZ => m.AcZ
  | .GyX => m.GyX
  | .GyY => m.GyY
  | .GyZ => m.GyZ

/-- The six assignments of `readMPU6050`, in program order, for the capture `c` that
the bus transaction delivers. -/
def readMPU6050_writes (c : Sensors) : List (Field × Int) :=
  [(.AcX, c.AcX), (.AcY, c.AcY), (.AcZ, c.AcZ), (.GyX, c.GyX), (.GyY, c.GyY), (.GyZ, c.GyZ)]

/-- The six globals `sendData` copies into a record, in program order. -/
def sendData_reads : List Field := [.GyX, .GyY, .GyZ, .AcX, .AcY, .AcZ]

/-- An interleaved execution. The schedule says which task takes the next step: `true`
lets `sensorTask` do its next pending assignment, `false` lets `networkTask` do its
next pending read. The result lists the values read, in order. -/
def interleave : List Bool → List (Field × Int) → List Field → Sensors → List Int
  | [], _, _, _ => []
  | true :: sch, w :: ws, rs, m => interleave sch ws rs (m.write w.1 w.2)
  | true :: sch, [], rs, m => interleave sch [] rs m
  | false :: sch, ws, r :: rs, m => m.read r :: interleave sch ws rs m
  | false :: sch, ws, [], m => interleave sch ws [] m

/-- The six values of a record whose fields all come from the capture `c`. -/
def recordOf (c : Sensors) : List Int := [c.GyX, c.GyY, c.GyZ, c.AcX, c.AcY, c.AcZ]

/-- A first sample capture. -/
def captureA : Sensors := { AcX := 1, AcY := 2, AcZ := 3, GyX := 4, GyY := 5, GyZ := 6 }

/-- A second sample capture. -/
def captureB : Sensors := { AcX := 11, AcY := 12, AcZ := 13, GyX := 14, GyY := 15, GyZ := 16 }

/-- The sensor globals at program start. -/
def sensorsInit : Sensors := { AcX := 0, AcY := 0, AcZ := 0, GyX := 0, GyY := 0, GyZ := 0 }

/-- A schedule in which `sensorTask` stores `captureA` and, of the next capture, AcX,
AcY, AcZ and GyX, and `networkTask` does its six reads before `sensorTask` goes on. -/
def tornSchedule : List Bool :=
  List.replicate 6 true ++ List.replicate 4 true ++ List.replicate 6 false

/-- A sample state: client attached, capture index 5, a capture with negative values. -/
def sampleState : State :=
  { AcX := 16384, AcY := -300, AcZ := 7, GyX := -2, GyY := 258, GyZ := -32768
    client := true
    dataBuffer := fun _ => 170
    captureCount := 12000
    sendCount := 120
    lastReportTime := 6000
    lastCPS := 4000
    lastSent := 40
    captureIndex := 5 }

/-- Sample inputs of `sendData`: client connected, clock at 9000000, full write. -/
def sampleSendEnv : SendEnv := { connected := true, micros := 9000000, written := 2200 }

/-- Sample inputs of a `networkTask` iteration with the client alive. -/
def sampleNetEnv : NetEnv := { alive := true, available := false, send := sampleSendEnv }

/-- Sample contents of the shared globals. -/
def sampleShared : Shared :=
  { AcX := 1, AcY := 2, AcZ := 3, GyX := 4, GyY := 5, GyZ := 6
    captureCount := 7, sendCount := 0, lastReportTime := 0, lastCPS := 0, lastSent := 0 }

/-- A state of the reporter 1968 ms before `micros()` wraps: the last report was made
when `micros()` read 4293000000. -/
def beforeWrap : State :=
  { initState with captureCount := 7872, sendCount := 78, lastReportTime := 4293000,
                   lastCPS := 4000, lastSent := 40 }

end Tcp

namespace Udp

/-! ## `main_server.cpp` -/

/-- The constant `serverPort`. -/
def serverPort : Nat := 12345

/-- The constant `DISCOVERY_TIMEOUT`, in milliseconds. -/
def DISCOVERY_TIMEOUT : Nat := 10000

/-- The constant `BATCH_SIZE`. -/
def BATCH_SIZE : Int := 10

/-- The bytes of an ASCII string literal, without the terminating zero. -/
def bytesOf (s : String) : List Nat := s.toList.map Char.toNat

/-- A datagram waiting in the socket: sender address and payload bytes. -/
structure Packet where
  remoteIP : Nat
  payload : List Nat

/-- A datagram sent with `udp.beginPacket(ip, port); udp.write(...); udp.endPacket()`. -/
structure Datagram where
  ip : Nat
  port : Nat
  payload : String
deriving DecidableEq

/-- The globals of the program, and the locals `lastTime` and `count` of `sendDataTask`. -/
structure State where
  AcX : Int
  AcY : Int
  AcZ : Int
  GyX : Int
  GyY : Int
  GyZ : Int
  clientIP : Nat
  clientConnected : Bool
  isSending : Bool
  lastDiscoveryTime : Nat
  dataBuffer : String
  lastTime : Nat
  count : Int

/-- The six values one bus transaction of `readMPU6050` delivers. -/
structure Capture where
  AcX : Int
  AcY : Int
  AcZ : Int
  GyX : Int
  GyY : Int
  GyZ : Int

/-- The function `readMPU6050`, given the values the bus transaction delivers. -/
def readMPU6050 (s : State) (c : Capture) : State :=
  { s with AcX := c.AcX, AcY := c.AcY, AcZ := c.AcZ, GyX := c.GyX, GyY := c.GyY, GyZ := c.GyZ }

/-- The characters of a zero-terminated `char` buffer, as `String(buffer)` sees them. -/
def cString (buffer : List Nat) : List Nat := buffer.takeWhile (fun b => b != 0)

/-- The function `checkForDiscovery`, given the datagram `udp.parsePacket()` finds (if
any) and the reading of `millis()`. The result is the new state and the datagrams sent. -/
def checkForDiscovery (s : State) (pkt : Option Packet) (millis : Nat) :
    State × List Datagram :=
  match pkt with
  | none => (s, [])
  | some p =>
    let packetSize := p.payload.length
    if packetSize ≠ 0 then
      let buffer := p.payload.take (32 - 1)
      let len := buffer.length
      if len > 0 then
        if cString buffer = bytesOf "DISCOVER_VIBS_SERVER" then
          let clientIP := p.remoteIP
          ({ s with clientIP := clientIP, clientConnected := true, lastDiscoveryTime := millis },
           [{ ip := clientIP, port := serverPort, payload := "SERVER_ACK" }])
        else (s, [])
      else (s, [])
    else (s, [])

/-- The function `checkClientStatus`, given the answer of `WiFi.softAPgetStationNum()`
and the reading of `millis()`. -/
def checkClientStatus (s : State) (stations : Nat) (millis : Nat) : State :=
  if s.clientConnected &&
      (stations == 0 || decide (sub32 millis s.lastDiscoveryTime > DISCOVERY_TIMEOUT)) then
    { s with clientConnected := false, isSending := if s.isSending then false else s.isSending }
  else s

/-- What one iteration of `sendDataTask` reads from its surroundings, in program order. -/
structure IterIn where
  packet : Option Packet
  millisDiscovery : Nat
  stations : Nat
  millisStatus : Nat
  capture : Capture
  millisTuple : Nat
  millisRate : Nat
  millisLast : Nat

/-- What one iteration of `sendDataTask` does to its surroundings: the datagrams sent by
`checkForDiscovery`, the text appended to `dataBuffer` (if the append statement runs),
and the datagrams sent from `dataBuffer`. -/
structure IterOut where
  replies : List Datagram
  appended : Option String
  packets : List Datagram

/-- The text `String(GyX) + "," + String(GyY) + "," + String(GyZ) + "," + String(millis()) + "\n"`. -/
def tupleText (s : State) (millis : Nat) : String :=
  toString s.GyX ++ "," ++ toString s.GyY ++ "," ++ toString s.GyZ ++ "," ++ toString millis ++ "\n"

/-- One iteration of the `while (true)` loop of `sendDataTask`. -/
def sendDataTask_iter (s : State) (i : IterIn) : State × IterOut :=
  let (s, replies) := checkForDiscovery s i.packet i.millisDiscovery
  let s := checkClientStatus s i.stations i.millisStatus
  if s.clientConnected then
    let s := if !s.isSending then { s with isSending := true } else s
    let s := readMPU6050 s i.capture
    let tuple := tupleText s i.millisTuple
    let s := { s with dataBuffer := s.dataBuffer ++ tuple }
    let s := { s with count := s.count + 1 }
    let (s, packets) :=
      if s.count ≥ BATCH_SIZE then
        ({ s with dataBuffer := "", count := 0 },
         [{ ip := s.clientIP, port := serverPort, payload := s.dataBuffer : Datagram }])
      else (s, [])
    let s := if sub32 i.millisRate s.lastTime ≥ 1000 then { s with lastTime := i.millisLast } else s
    (s, { replies := replies, appended := some tuple, packets := packets })
  else if s.isSending then
    ({ s with isSending := false }, { replies := replies, appended := none, packets := [] })
  else
    (s, { replies := replies, appended := none, packets := [] })

/-- A finite run of `sendDataTask`: one iteration per list element. -/
def sendDataTask : State → List IterIn → State × List IterOut
  | s, [] => (s, [])
  | s, i :: rest =>
    let r := sendDataTask_iter s i
    let rs := sendDataTask r.1 rest
    (rs.1, r.2 :: rs.2)

/-- The concatenation of a list of texts. -/
def concat : List String → String
  | [] => ""
  | t :: ts => t ++ concat ts

/-- The text `<GyX>,<GyY>,<GyZ>,<millis>` followed by a line feed, for the capture and
the clock reading of an iteration. -/
def tupleOf (i : IterIn) : String :=
  toString i.capture.GyX ++ "," ++ toString i.capture.GyY ++ "," ++ toString i.capture.GyZ
    ++ "," ++ toString i.millisTuple ++ "\n"

/-- Whether a datagram is waiting whose text, as `checkForDiscovery` reads it, is the
discovery request. -/
def discoveryReceived (pkt : Option Packet) : Bool :=
  match pkt with
  | none => false
  | some p => decide (cString (p.payload.take 31) = bytesOf "DISCOVER_VIBS_SERVER")

/-- A sample session state: active client, three tuples pending. -/
def activeSession : State :=
  { AcX := 0, AcY := 0, AcZ := 0, GyX := 0, GyY := 0, GyZ := 0
    clientIP := 3232235778
    clientConnected := true
    isSending := true
    lastDiscoveryTime := 50000
    dataBuffer := "1,2,3,50100\n4,5,6,50101\n7,8,9,50102\n"
    lastTime := 50000
    count := 3 }

/-- Sample inputs of an iteration: no datagram, one station, clock at `now`. -/
def quietIn (now : Nat) : IterIn :=
  { packet := none, millisDiscovery := now, stations := 1, millisStatus := now
    capture := { AcX := 10, AcY := 20, AcZ := 30, GyX := -4, GyY := 5, GyZ := 6 }
    millisTuple := now, millisRate := now, millisLast := now }

end Udp

/-! ## Theorems about `server_tcp.Raw_Threads.cpp` -/

namespace Tcp

theorem memcpy_bind {α : Type} (buf : Nat → Nat) (off : Nat) (o : Int) (v : Int) (n : Nat)
    (f : (Nat → Nat) → Option α) (ho : o = (off : Int)) (h1 : off + n ≤ 2200) :
    (memcpy buf o v n >>= f) = f (store buf off v n) := by
  subst ho
  unfold memcpy BUFFER_SIZE
  rw [if_pos ⟨by omega, by omega⟩]
  simp

theorem store_chain (s : State) (e : SendEnv) (k : Nat) :
    store (store (store (store (store (store (store (store (store s.dataBuffer
      (22 * k) s.GyX 2) (22 * k + 2) s.GyY 2) (22 * k + 4) s.GyZ 2) (22 * k + 6) s.AcX 2)
      (22 * k + 8) s.AcY 2) (22 * k + 10) s.AcZ 2) (22 * k + 12) (e.micros : Int) 4)
      (22 * k + 16) (s.lastCPS : Int) 4) (22 * k + 20) (k : Int) 2 = framed s e k := by
  funext i
  simp only [framed]
  split_ifs <;> simp (disch := omega) only [store, if_pos, if_neg]

theorem sendData_eq (s : State) (e : SendEnv) (k : Nat)
    (hclient : s.client = true) (hconn : e.connected = true)
    (hk : s.captureIndex = (k : Int)) (hk100 : k < 100) :
    sendData s e = some (afterSend s e k,
      if k = 99 then [bufferBytes (framed s e k) 2200] else []) := by
  unfold sendData
  simp only [hclient, hconn, hk, packetSize, CAPTURES_PER_PACKET]
  rw [if_neg (by decide)]
  rw [memcpy_bind _ (22 * k) _ _ _ _ (by push_cast; ring) (by omega)]
  rw [memcpy_bind _ (22 * k + 2) _ _ _ _ (by push_cast; ring) (by omega)]
  rw [memcpy_bind _ (22 * k + 4) _ _ _ _ (by push_cast; ring) (by omega)]
  rw [memcpy_bind _ (22 * k + 6) _ _ _ _ (by push_cast; ring) (by omega)]
  rw [memcpy_bind _ (22 * k + 8) _ _ _ _ (by push_cast; ring) (by omega)]
  rw [memcpy_bind _ (22 * k + 10) _ _ _ _ (by push_cast; ring) (by omega)]
  rw [memcpy_bind _ (22 * k + 12) _ _ _ _ (by push_cast; ring) (by omega)]
  rw [memcpy_bind _ (22 * k + 16) _ _ _ _ (by push_cast; ring) (by omega)]
  rw [memcpy_bind _ (22 * k + 20) _ _ _ _ (by push_cast; ring) (by omega)]
  rw [store_chain]
  have h2200 : ((100 : Int) * 22).toNat = 2200 := by decide
  rw [h2200]
  by_cases h99 : k = 99
  · subst h99
    by_cases hw : e.written = 2200
    · simp [afterSend, hw, hclient]
    · simp [afterSend, hw, hclient]
  · have : ¬ ((k : Int) + 1 = 100) := by omega
    simp [afterSend, h99, this, hclient]

theorem leByte_zero (v : Int) : leByte v 0 = (v % 256).toNat := by
  simp [leByte]

theorem leByte_one (v : Int) : leByte v 1 = (v / 256 % 256).toNat := by
  simp [leByte]

theorem leByte_two (v : Int) : leByte v 2 = (v / 65536 % 256).toNat := by
  simp [leByte]

theorem leByte_three (v : Int) : leByte v 3 = (v / 16777216 % 256).toNat := by
  simp [leByte]

theorem leByte_lt (v : Int) (i : Nat) : leByte v i < 256 := by
  unfold leByte
  have h := Int.emod_lt_of_pos (v / 256 ^ i) (by norm_num : (0 : Int) < 256)
  have h0 := Int.emod_nonneg (v / 256 ^ i) (by norm_num : (256 : Int) ≠ 0)
  omega

theorem decodeI16_leByte (v : Int) (h0 : -32768 ≤ v) (h1 : v < 32768) :
    decodeI16 (leByte v 0) (leByte v 1) = v := by
  rw [leByte_zero, leByte_one]
  unfold decodeI16
  split_ifs <;> omega

theorem decodeU32_leByte (v : Nat) (h : v < 4294967296) :
    decodeU32 (leByte v 0) (leByte v 1) (leByte v 2) (leByte v 3) = v := by
  rw [leByte_zero, leByte_one, leByte_two, leByte_three]
  unfold decodeU32
  omega

theorem decodeU16_leByte (v : Nat) :
    decodeU16 (leByte v 0) (leByte v 1) = v % 65536 := by
  rw [leByte_zero, leByte_one]
  unfold decodeU16
  omega

theorem framed_at (s : State) (e : SendEnv) (k : Nat) :
    framed s e k (22 * k) = leByte s.GyX 0 ∧ framed s e k (22 * k + 1) = leByte s.GyX 1 ∧
    framed s e k (22 * k + 2) = leByte s.GyY 0 ∧ framed s e k (22 * k + 3) = leByte s.GyY 1 ∧
    framed s e k (22 * k + 4) = leByte s.GyZ 0 ∧ framed s e k (22 * k + 5) = leByte s.GyZ 1 ∧
    framed s e k (22 * k + 6) = leByte s.AcX 0 ∧ framed s e k (22 * k + 7) = leByte s.AcX 1 ∧
    framed s e k (22 * k + 8) = leByte s.AcY 0 ∧ framed s e k (22 * k + 9) = leByte s.AcY 1 ∧
    framed s e k (22 * k + 10) = leByte s.AcZ 0 ∧ framed s e k (22 * k + 11) = leByte s.AcZ 1 ∧
    framed s e k (22 * k + 12) = leByte e.micros 0 ∧
    framed s e k (22 * k + 13) = leByte e.micros 1 ∧
    framed s e k (22 * k + 14) = leByte e.micros 2 ∧
    framed s e k (22 * k + 15) = leByte e.micros 3 ∧
    framed s e k (22 * k + 16) = leByte s.lastCPS 0 ∧
    framed s e k (22 * k + 17) = leByte s.lastCPS 1 ∧
    framed s e k (22 * k + 18) = leByte s.lastCPS 2 ∧
    framed s e k (22 * k + 19) = leByte s.lastCPS 3 ∧
    framed s e k (22 * k + 20) = leByte k 0 ∧ framed s e k (22 * k + 21) = leByte k 1 := by
  refine ⟨?_, ?_, ?_, ?_, ?_, ?_, ?_, ?_, ?_, ?_, ?_, ?_, ?_, ?_, ?_, ?_, ?_, ?_, ?_, ?_, ?_, ?_⟩ <;>
    simp (disch := omega) only [framed, if_pos, if_neg] <;> congr 1 <;> omega

theorem framed_lt (s : State) (e : SendEnv) (k i : Nat) (h0 : 22 * k ≤ i) (h1 : i < 22 * k + 22) :
    framed s e k i < 256 := by
  simp only [framed]
  split_ifs <;> first | exact leByte_lt _ _ | omega

theorem framed_outside (s : State) (e : SendEnv) (k i : Nat) (h : i < 22 * k ∨ 22 * k + 22 ≤ i) :
    framed s e k i = s.dataBuffer i := by
  simp only [framed]
  rw [if_neg (by omega)]

/-- C1: with a connected client and `captureIndex = k < 100`, one call of `sendData`
returns, and the 22 bytes of `dataBuffer` from offset `22 * k` decode, in order, to
GyX, GyY, GyZ, AcX, AcY, AcZ (16-bit little-endian two's complement), the `micros()`
timestamp and `lastCPS` (32-bit little-endian) and the low 16 bits of `k` (16-bit
little-endian); every byte outside that window keeps its value. -/
theorem sendData_frames_record (s : State) (e : SendEnv) (k : Nat)
    (hclient : s.client = true) (hconn : e.connected = true)
    (hk : s.captureIndex = (k : Int)) (hk100 : k < 100)
    (hGyX : -32768 ≤ s.GyX ∧ s.GyX < 32768) (hGyY : -32768 ≤ s.GyY ∧ s.GyY < 32768)
    (hGyZ : -32768 ≤ s.GyZ ∧ s.GyZ < 32768) (hAcX : -32768 ≤ s.AcX ∧ s.AcX < 32768)
    (hAcY : -32768 ≤ s.AcY ∧ s.AcY < 32768) (hAcZ : -32768 ≤ s.AcZ ∧ s.AcZ < 32768)
    (hts : e.micros < 4294967296) (hcps : s.lastCPS < 4294967296) :
    ∃ s' ws, sendData s e = some (s', ws) ∧
      decodeI16 (s'.dataBuffer (22 * k)) (s'.dataBuffer (22 * k + 1)) = s.GyX ∧
      decodeI16 (s'.dataBuffer (22 * k + 2)) (s'.dataBuffer (22 * k + 3)) = s.GyY ∧
      decodeI16 (s'.dataBuffer (22 * k + 4)) (s'.dataBuffer (22 * k + 5)) = s.GyZ ∧
      decodeI16 (s'.dataBuffer (22 * k + 6)) (s'.dataBuffer (22 * k + 7)) = s.AcX ∧
      decodeI16 (s'.dataBuffer (22 * k + 8)) (s'.dataBuffer (22 * k + 9)) = s.AcY ∧
      decodeI16 (s'.dataBuffer (22 * k + 10)) (s'.dataBuffer (22 * k + 11)) = s.AcZ ∧
      decodeU32 (s'.dataBuffer (22 * k + 12)) (s'.dataBuffer (22 * k + 13))
        (s'.dataBuffer (22 * k + 14)) (s'.dataBuffer (22 * k + 15)) = e.micros ∧
      decodeU32 (s'.dataBuffer (22 * k + 16)) (s'.dataBuffer (22 * k + 17))
        (s'.dataBuffer (22 * k + 18)) (s'.dataBuffer (22 * k + 19)) = s.lastCPS ∧
      decodeU16 (s'.dataBuffer (22 * k + 20)) (s'.dataBuffer (22 * k + 21)) = k % 65536 ∧
      (∀ i, 22 * k ≤ i → i < 22 * k + 22 → s'.dataBuffer i < 256) ∧
      (∀ i, i < 22 * k ∨ 22 * k + 22 ≤ i → s'.dataBuffer i = s.dataBuffer i) := by
  refine ⟨_, _, sendData_eq s e k hclient hconn hk hk100, ?_⟩
  obtain ⟨a0, a1, a2, a3, a4, a5, a6, a7, a8, a9, a10, a11, a12, a13, a14, a15, a16, a17,
    a18, a19, a20, a21⟩ := framed_at s e k
  simp only [afterSend]
  rw [a0, a1, a2, a3, a4, a5, a6, a7, a8, a9, a10, a11, a12, a13, a14, a15, a16, a17,
    a18, a19, a20, a21]
  exact ⟨decodeI16_leByte _ hGyX.1 hGyX.2, decodeI16_leByte _ hGyY.1 hGyY.2,
    decodeI16_leByte _ hGyZ.1 hGyZ.2, decodeI16_leByte _ hAcX.1 hAcX.2,
    decodeI16_leByte _ hAcY.1 hAcY.2, decodeI16_leByte _ hAcZ.1 hAcZ.2,
    decodeU32_leByte _ hts, decodeU32_leByte _ hcps, decodeU16_leByte _,
    fun i h0 h1 => framed_lt s e k i h0 h1, fun i h => framed_outside s e k i h⟩

theorem bufferBytes_length (b : Nat → Nat) (n : Nat) : (bufferBytes b n).length = n := by
  simp [bufferBytes]

theorem bufferBytes_getD (b : Nat → Nat) (n i : Nat) (h : i < n) :
    (bufferBytes b n).getD i 0 = b i := by
  simp [bufferBytes, List.getD, List.getElem?_map, List.getElem?_range h]

theorem framed_seq (s : State) (e : SendEnv) (k : Nat)
    (hrec : ∀ j, j < k → decodeU16 (s.dataBuffer (22 * j + 20)) (s.dataBuffer (22 * j + 21)) = j)
    (hk : k < 100) (j : Nat) (hj : j < k + 1) :
    decodeU16 (framed s e k (22 * j + 20)) (framed s e k (22 * j + 21)) = j := by
  by_cases hjk : j = k
  · subst hjk
    have h := framed_at s e j
    rw [h.2.2.2.2.2.2.2.2.2.2.2.2.2.2.2.2.2.2.2.2.1, h.2.2.2.2.2.2.2.2.2.2.2.2.2.2.2.2.2.2.2.2.2,
      decodeU16_leByte]
    omega
  · rw [framed_outside s e k _ (by omega), framed_outside s e k _ (by omega)]
    exact hrec j (by omega)

theorem sendData_preserves (s : State) (e : SendEnv) (h : RecordsOk s) :
    ∃ s' ws, sendData s e = some (s', ws) ∧ RecordsOk s' ∧ s'.client = s.client ∧
      ∀ w ∈ ws, WholePacket w := by
  by_cases hc : s.client = true ∧ e.connected = true
  · obtain ⟨k, hk, hk100, hrec⟩ := h
    refine ⟨_, _, sendData_eq s e k hc.1 hc.2 hk hk100, ?_, rfl, ?_⟩
    · by_cases h99 : k = 99
      · exact ⟨0, by simp [afterSend, h99], by omega, fun j hj => absurd hj (by omega)⟩
      · refine ⟨k + 1, by simp [afterSend, h99], by omega, fun j hj => ?_⟩
        simpa [afterSend] using framed_seq s e k hrec hk100 j hj
    · intro w hw
      by_cases h99 : k = 99
      · rw [if_pos h99] at hw
        rw [List.mem_singleton] at hw
        rw [hw]
        unfold WholePacket
        refine ⟨bufferBytes_length _ 2200, fun j hj => ?_⟩
        rw [bufferBytes_getD _ 2200 _ (by omega), bufferBytes_getD _ 2200 _ (by omega)]
        exact framed_seq s e k hrec hk100 j (by omega)
      · rw [if_neg h99] at hw
        exact absurd hw (List.not_mem_nil w)
  · refine ⟨s, [], ?_, h, rfl, fun w hw => absurd hw (List.not_mem_nil w)⟩
    unfold sendData
    rw [if_pos]
    cases hs : s.client <;> cases he : e.connected <;> simp_all

theorem networkTask_iter_preserves (s : State) (o : Shared) (e : NetEnv) (h : RecordsOk s) :
    ∃ s' ws, networkTask_iter (interfere s o) e = some (s', ws) ∧ RecordsOk s' ∧
      ∀ w ∈ ws, WholePacket w := by
  have hi : RecordsOk (interfere s o) := h
  unfold networkTask_iter
  split_ifs with hg
  · exact ⟨_, [], rfl, hi, fun w hw => absurd hw (List.not_mem_nil w)⟩
  · obtain ⟨s', ws, h1, h2, _, h3⟩ := sendData_preserves (interfere s o) e.send hi
    exact ⟨s', ws, h1, h2, h3⟩

theorem networkTask_preserves (es : List (Shared × NetEnv)) :
    ∀ s : State, RecordsOk s →
      ∃ s' ws, networkTask s es = some (s', ws) ∧ RecordsOk s' ∧ ∀ w ∈ ws, WholePacket w := by
  induction es with
  | nil =>
    intro s h
    exact ⟨s, [], rfl, h, fun w hw => absurd hw (List.not_mem_nil w)⟩
  | cons oe rest ih =>
    intro s h
    obtain ⟨o, e⟩ := oe
    obtain ⟨s1, w1, h1, hr1, hw1⟩ := networkTask_iter_preserves s o e h
    obtain ⟨s2, w2, h2, hr2, hw2⟩ := ih s1 hr1
    refine ⟨s2, w1 ++ w2, ?_, hr2, ?_⟩
    · simp only [networkTask, h1, h2]
    · intro w hw
      rcases List.mem_append.mp hw with hw | hw
      · exact hw1 w hw
      · exact hw2 w hw

/-- C2: from any state with `captureIndex = 0`, every finite run of `networkTask`
(whatever the client does, whatever the other tasks leave in the shared globals, full
or short writes) returns; in the state reached `0 ≤ captureIndex < 100`, so the next
record lies inside the 2200-byte buffer; and every payload passed to `client.write` has
exactly `100 * 22 = 2200` bytes, holding 100 records whose sequence fields are
0, 1, ..., 99 in order. -/
theorem networkTask_whole_records (s0 : State) (es : List (Shared × NetEnv))
    (h0 : s0.captureIndex = 0) :
    ∃ s ws, networkTask s0 es = some (s, ws) ∧
      0 ≤ s.captureIndex ∧ s.captureIndex < CAPTURES_PER_PACKET ∧
      22 * s.captureIndex + 22 ≤ 2200 ∧
      ∀ w ∈ ws, w.length = 100 * 22 ∧ w.length % 22 = 0 ∧
        ∀ j, j < 100 → decodeU16 (w.getD (22 * j + 20) 0) (w.getD (22 * j + 21) 0) = j := by
  have hinit : RecordsOk s0 := ⟨0, by simp [h0], by omega, fun j hj => absurd hj (by omega)⟩
  obtain ⟨s, ws, hrun, ⟨k, hk, hk100, _⟩, hws⟩ := networkTask_preserves es s0 hinit
  refine ⟨s, ws, hrun, by omega, by unfold CAPTURES_PER_PACKET; omega, by omega, ?_⟩
  intro w hw
  obtain ⟨hl, hseq⟩ := hws w hw
  exact ⟨by omega, by omega, hseq⟩

/-- Witness of C1 on `sampleState` (capture index 5, record at bytes 110 to 131). -/
theorem sendData_frames_record_witness :
    ∃ s' ws, sendData sampleState sampleSendEnv = some (s', ws) ∧
      decodeI16 (s'.dataBuffer (22 * 5)) (s'.dataBuffer (22 * 5 + 1)) = -2 ∧
      decodeI16 (s'.dataBuffer (22 * 5 + 4)) (s'.dataBuffer (22 * 5 + 5)) = -32768 ∧
      decodeU32 (s'.dataBuffer (22 * 5 + 12)) (s'.dataBuffer (22 * 5 + 13))
        (s'.dataBuffer (22 * 5 + 14)) (s'.dataBuffer (22 * 5 + 15)) = 9000000 ∧
      decodeU16 (s'.dataBuffer (22 * 5 + 20)) (s'.dataBuffer (22 * 5 + 21)) = 5 ∧
      s'.dataBuffer 109 = 170 ∧ s'.dataBuffer 132 = 170 := by
  obtain ⟨s', ws, h, h1, _, h3, _, _, _, h7, _, h9, _, h11⟩ :=
    sendData_frames_record sampleState sampleSendEnv 5 rfl rfl rfl (by decide)
      ⟨by decide, by decide⟩ ⟨by decide, by decide⟩ ⟨by decide, by decide⟩
      ⟨by decide, by decide⟩ ⟨by decide, by decide⟩ ⟨by decide, by decide⟩
      (by decide) (by decide)
  exact ⟨s', ws, h, h1, h3, h7, h9, h11 109 (by omega), h11 132 (by omega)⟩

/-- Witness of C2: from the initial state, an iteration that accepts a client followed
by 100 iterations that frame a record each. -/
theorem networkTask_whole_records_witness :
    ∃ s ws, networkTask initState
        ((sampleShared, { sampleNetEnv with available := true }) ::
          List.replicate 100 (sampleShared, sampleNetEnv)) = some (s, ws) ∧
      0 ≤ s.captureIndex ∧ s.captureIndex < CAPTURES_PER_PACKET ∧
      22 * s.captureIndex + 22 ≤ 2200 ∧
      ∀ w ∈ ws, w.length = 100 * 22 ∧ w.length % 22 = 0 ∧
        ∀ j, j < 100 → decodeU16 (w.getD (22 * j + 20) 0) (w.getD (22 * j + 21) 0) = j :=
  networkTask_whole_records initState _ rfl

/-- C3, counterexample: with a client attached and alive and capture index 5, one
iteration of `networkTask` frames the capture but passes nothing to `client.write`;
in particular it does not issue one write of 22 bytes. -/
theorem networkTask_iter_no_record_packet :
    (networkTask_iter sampleState sampleNetEnv).map Prod.snd = some [] ∧
    ¬ ∃ s' w, networkTask_iter sampleState sampleNetEnv = some (s', [w]) ∧ w.length = 22 := by
  have h : networkTask_iter sampleState sampleNetEnv
      = some (afterSend sampleState sampleSendEnv 5, []) := by
    have h5 := sendData_eq sampleState sampleSendEnv 5 rfl rfl rfl (by decide)
    rw [if_neg (by decide)] at h5
    unfold networkTask_iter
    rw [if_neg (by decide)]
    exact h5
  refine ⟨by rw [h]; rfl, ?_⟩
  rintro ⟨s', w, hw, _⟩
  rw [h] at hw
  simp at hw

/-- C3, amended: with a client attached and alive and `captureIndex = k < 100`, one
iteration of `networkTask` returns, having framed the capture into the 22-byte record
at offset `22 * k` of `dataBuffer`: its first 6 bytes decode to GyX, GyY, GyZ
(little-endian, in that order) and its last 2 bytes to the low 16 bits of `k`. For
`k < 99` nothing is passed to `client.write`; for `k = 99` exactly one payload is, the
whole buffer of `100 * 22 = 2200` bytes. -/
theorem networkTask_iter_batches (s : State) (e : NetEnv) (k : Nat)
    (hclient : s.client = true) (halive : e.alive = true) (hconn : e.send.connected = true)
    (hk : s.captureIndex = (k : Int)) (hk100 : k < 100)
    (hGyX : -32768 ≤ s.GyX ∧ s.GyX < 32768) (hGyY : -32768 ≤ s.GyY ∧ s.GyY < 32768)
    (hGyZ : -32768 ≤ s.GyZ ∧ s.GyZ < 32768) :
    ∃ s' ws, networkTask_iter s e = some (s', ws) ∧
      decodeI16 (s'.dataBuffer (22 * k)) (s'.dataBuffer (22 * k + 1)) = s.GyX ∧
      decodeI16 (s'.dataBuffer (22 * k + 2)) (s'.dataBuffer (22 * k + 3)) = s.GyY ∧
      decodeI16 (s'.dataBuffer (22 * k + 4)) (s'.dataBuffer (22 * k + 5)) = s.GyZ ∧
      decodeU16 (s'.dataBuffer (22 * k + 20)) (s'.dataBuffer (22 * k + 21)) = k % 65536 ∧
      (k < 99 → ws = []) ∧
      (k = 99 → ws = [bufferBytes s'.dataBuffer 2200] ∧
        (bufferBytes s'.dataBuffer 2200).length = 100 * 22) := by
  have hrun : networkTask_iter s e = some (afterSend s e.send k,
      if k = 99 then [bufferBytes (framed s e.send k) 2200] else []) := by
    unfold networkTask_iter
    rw [if_neg (by simp [hclient, halive])]
    exact sendData_eq s e.send k hclient hconn hk hk100
  refine ⟨_, _, hrun, ?_⟩
  obtain ⟨a0, a1, a2, a3, a4, a5, _, _, _, _, _, _, _, _, _, _, _, _, _, _, a20, a21⟩ :=
    framed_at s e.send k
  simp only [afterSend]
  rw [a0, a1, a2, a3, a4, a5, a20, a21]
  refine ⟨decodeI16_leByte _ hGyX.1 hGyX.2, decodeI16_leByte _ hGyY.1 hGyY.2,
    decodeI16_leByte _ hGyZ.1 hGyZ.2, decodeU16_leByte _, ?_, ?_⟩
  · intro h
    rw [if_neg (by omega)]
  · intro h
    rw [if_pos h]
    exact ⟨rfl, bufferBytes_length _ 2200⟩

/-- Witness of the amended C3 on `sampleState`: capture index 5, no write, sequence
field 5. -/
theorem networkTask_iter_batches_witness :
    ∃ s' ws, networkTask_iter sampleState sampleNetEnv = some (s', ws) ∧
      decodeI16 (s'.dataBuffer (22 * 5)) (s'.dataBuffer (22 * 5 + 1)) = -2 ∧
      decodeU16 (s'.dataBuffer (22 * 5 + 20)) (s'.dataBuffer (22 * 5 + 21)) = 5 ∧
      ws = [] := by
  obtain ⟨s', ws, h, h1, _, _, h4, h5, _⟩ :=
    networkTask_iter_batches sampleState sampleNetEnv 5 rfl rfl rfl rfl (by decide)
      ⟨by decide, by decide⟩ ⟨by decide, by decide⟩ ⟨by decide, by decide⟩
  exact ⟨s', ws, h, h1, h4, h5 (by decide)⟩

/-- C4, the code at the failing input: an iteration that starts 1000 microseconds after
the previous one has `correction = -750`, so `targetInterval + correction` is `-500` as
a signed sum, but the comparison is made in `uint32_t`, where the right-hand side is
4294966796: the condition is true at its first evaluation and the loop keeps spinning. -/
theorem sensorTask_overrun_spins :
    (sensorTask_iter { lastTime := 0, errorSum := 0 } 1000).2.1 = -750 ∧
    (targetInterval : Int) + (sensorTask_iter { lastTime := 0, errorSum := 0 } 1000).2.1 ≤ 0 ∧
    (sensorTask_iter { lastTime := 0, errorSum := 0 } 1000).2.2 = 4294966796 ∧
    waitCondition 1000 1000 (sensorTask_iter { lastTime := 0, errorSum := 0 } 1000).2.2 = true ∧
    busyWait 1000 (sensorTask_iter { lastTime := 0, errorSum := 0 } 1000).2.2
      [1000, 1001, 2000, 1000000] = 4 := by
  decide

theorem toInt32_range (x : Int) : -2147483648 ≤ toInt32 x ∧ toInt32 x < 2147483648 := by
  unfold toInt32
  omega

theorem correction_range (st : Sampler) (startTime : Nat) :
    -2147483648 ≤ (sensorTask_iter st startTime).2.1 ∧
      (sensorTask_iter st startTime).2.1 < 2147483648 :=
  toInt32_range _

/-- The wait condition in general: when the signed sum `targetInterval + correction` is
negative, the condition holds for every clock reading less than `2^32 + sum`
microseconds after `startTime`; when the sum is zero it fails at once. -/
theorem waitCondition_of_nonpos (st : Sampler) (startTime now : Nat) :
    ((targetInterval : Int) + (sensorTask_iter st startTime).2.1 < 0 →
      ((sub32 now startTime : Int) <
          4294967296 + ((targetInterval : Int) + (sensorTask_iter st startTime).2.1) →
        waitCondition now startTime (sensorTask_iter st startTime).2.2 = true)) ∧
    ((targetInterval : Int) + (sensorTask_iter st startTime).2.1 = 0 →
      waitCondition now startTime (sensorTask_iter st startTime).2.2 = false) := by
  have hc := correction_range st startTime
  have hl : (sensorTask_iter st startTime).2.2
      = addU32 targetInterval (sensorTask_iter st startTime).2.1 := by
    simp only [sensorTask_iter]
  rw [hl]
  generalize (sensorTask_iter st startTime).2.1 = c at hc ⊢
  clear hl
  have ht : ((targetInterval : Nat) : Int) = 250 := rfl
  rw [ht]
  unfold waitCondition addU32
  rw [ht]
  constructor
  · intro h1 h2
    rw [decide_eq_true_eq]
    omega
  · intro h
    rw [decide_eq_false_iff_not]
    omega

/-- A pass of `loop()` that finds less than 3000 on its millisecond difference changes
nothing; one that finds at least 3000 stores the two rates, clears the two counters and
records the current millisecond reading. -/
theorem loop_step (s : State) (micros : Nat) :
    (sub32 (micros / 1000) s.lastReportTime < 3000 → loop s micros = s) ∧
    (3000 ≤ sub32 (micros / 1000) s.lastReportTime →
      (loop s micros).lastCPS = s.captureCount / 3 ∧
      (loop s micros).lastSent = s.sendCount / 3 ∧
      (loop s micros).captureCount = 0 ∧ (loop s micros).sendCount = 0 ∧
      (loop s micros).lastReportTime = micros / 1000) := by
  constructor
  · intro h
    simp only [loop]
    rw [if_neg (by omega)]
  · intro h
    simp only [loop]
    rw [if_pos (by omega)]
    exact ⟨rfl, rfl, rfl, rfl, rfl⟩

/-- C8, the code at the failing input: the reporter last reported when `micros()` read
4293000000 (`lastReportTime = 4293000`). The clock then wraps; 1968000 microseconds
after that report `micros()` reads 704, `currentTime` is 0 and the unsigned difference
`0 - 4293000` is 4290674296, so the step reports again, after 1968 ms instead of 3000,
and still divides the counts by 3. -/
theorem loop_reports_early_at_wrap :
    (loop { beforeWrap with lastReportTime := 4290000 } 4293000000).lastReportTime
      = beforeWrap.lastReportTime ∧
    sub32 704 4293000000 = 1968000 ∧
    sub32 (704 / 1000) beforeWrap.lastReportTime = 4290674296 ∧
    (loop beforeWrap 704).lastReportTime = 0 ∧
    (loop beforeWrap 704).lastCPS = 2624 ∧
    (loop beforeWrap 704).lastSent = 26 ∧
    (loop beforeWrap 704).captureCount = 0 ∧
    (loop beforeWrap 704).sendCount = 0 := by
  decide

theorem sensorTask_iter_errorSum (st : Sampler) (s : Nat) :
    (sensorTask_iter st s).1.lastTime = s ∧
    -2147483648 ≤ (sensorTask_iter st s).1.errorSum ∧
    (sensorTask_iter st s).1.errorSum < 2147483648 ∧
    ((sensorTask_iter st s).1.errorSum
      - (st.errorSum + 250 - ((s : Int) - (st.lastTime : Int)))) % 4294967296 = 0 := by
  simp only [sensorTask_iter, sub32, toInt32, targetInterval]
  refine ⟨trivial, ?_, ?_, ?_⟩ <;> omega

theorem sensorTask_append (st : Sampler) (xs ys : List Nat) :
    sensorTask st (xs ++ ys) = sensorTask (sensorTask st xs) ys := by
  induction xs generalizing st with
  | nil => rfl
  | cons x xs ih => exact ih _

theorem errorSum_congr (ss : List Nat) :
    ∀ st : Sampler,
      ((sensorTask st ss).errorSum - (st.errorSum + 250 * (ss.length : Int)
        - (((sensorTask st ss).lastTime : Int) - (st.lastTime : Int)))) % 4294967296 = 0 := by
  induction ss with
  | nil => intro st; simp [sensorTask]
  | cons s rest ih =>
    intro st
    have h1 := sensorTask_iter_errorSum st s
    have h2 := ih (sensorTask_iter st s).1
    simp only [sensorTask, List.length_cons]
    push_cast
    omega

/-- C10: started with `lastTime = t0` and `errorSum = 0`, after `n = ss.length + 1`
iterations whose start times are `ss` followed by `s_n`, `sensorTask` has
`lastTime = s_n` and an `errorSum` that is a signed 32-bit value congruent to
`250 * n - (s_n - t0)` modulo 2^32. It is therefore the wrapped value of that
expression, whatever the intermediate start times, and it is zero exactly when
`s_n - t0` is congruent to `250 * n` modulo 2^32. -/
theorem sensorTask_errorSum (t0 : Nat) (ss : List Nat) (s_n : Nat) :
    (sensorTask { lastTime := t0, errorSum := 0 } (ss ++ [s_n])).lastTime = s_n ∧
    -2147483648 ≤ (sensorTask { lastTime := t0, errorSum := 0 } (ss ++ [s_n])).errorSum ∧
    (sensorTask { lastTime := t0, errorSum := 0 } (ss ++ [s_n])).errorSum < 2147483648 ∧
    ((sensorTask { lastTime := t0, errorSum := 0 } (ss ++ [s_n])).errorSum
      - (250 * ((ss.length : Int) + 1) - ((s_n : Int) - (t0 : Int)))) % 4294967296 = 0 ∧
    (sensorTask { lastTime := t0, errorSum := 0 } (ss ++ [s_n])).errorSum
      = toInt32 (250 * ((ss.length : Int) + 1) - ((s_n : Int) - (t0 : Int))) ∧
    ((sensorTask { lastTime := t0, errorSum := 0 } (ss ++ [s_n])).errorSum = 0 ↔
      (((s_n : Int) - (t0 : Int)) - 250 * ((ss.length : Int) + 1)) % 4294967296 = 0) := by
  have happ := sensorTask_append { lastTime := t0, errorSum := 0 } ss [s_n]
  have hlast := sensorTask_iter_errorSum (sensorTask { lastTime := t0, errorSum := 0 } ss) s_n
  have hpre := errorSum_congr ss { lastTime := t0, errorSum := 0 }
  have hstep : sensorTask { lastTime := t0, errorSum := 0 } (ss ++ [s_n])
      = (sensorTask_iter (sensorTask { lastTime := t0, errorSum := 0 } ss) s_n).1 := by
    rw [happ]; rfl
  rw [hstep]
  obtain ⟨h1, h2, h3, h4⟩ := hlast
  simp only at hpre
  unfold toInt32
  refine ⟨h1, h2, h3, ?_, ?_, ?_⟩ <;> omega

/-- C9, counterexample: `sensorTask` has stored `captureA` and is in the middle of
`readMPU6050` for `captureB` (GyX assigned, GyY and GyZ not yet) when `networkTask`
does the six reads of `sendData`: the record holds GyY and GyZ of `captureA` and the
four other fields of `captureB`, so its values do not all come from one capture. -/
theorem handoff_torn_record :
    interleave tornSchedule (readMPU6050_writes captureA ++ readMPU6050_writes captureB)
      sendData_reads sensorsInit = [14, 5, 6, 11, 12, 13] ∧
    ¬ ∃ c, c ∈ [sensorsInit, captureA, captureB] ∧
      interleave tornSchedule (readMPU6050_writes captureA ++ readMPU6050_writes captureB)
        sendData_reads sensorsInit = recordOf c := by
  decide

theorem interleave_no_reads (sch : List Bool) :
    ∀ (ws : List (Field × Int)) (m : Sensors), interleave sch ws [] m = [] := by
  induction sch with
  | nil => intro ws m; rfl
  | cons b sch ih =>
    intro ws m
    cases b <;> cases ws <;> simp [interleave, ih]

theorem interleave_reads (sch : List Bool) (ws : List (Field × Int)) (m : Sensors) :
    interleave (List.replicate 6 false ++ sch) ws sendData_reads m = recordOf m := by
  simp [List.replicate, interleave, sendData_reads, recordOf, Sensors.read, interleave_no_reads]

theorem interleave_writes (sch : List Bool) (c : Sensors) (ws : List (Field × Int))
    (rs : List Field) (m : Sensors) :
    interleave (List.replicate 6 true ++ sch) (readMPU6050_writes c ++ ws) rs m
      = interleave sch ws rs c := by
  simp [List.replicate, interleave, readMPU6050_writes, Sensors.write]

theorem interleave_captures (cs : List Sensors) :
    ∀ (sch : List Bool) (c : Sensors) (ws : List (Field × Int)) (rs : List Field) (m : Sensors),
      interleave (List.replicate (6 * (cs.length + 1)) true ++ sch)
        ((cs ++ [c]).flatMap readMPU6050_writes ++ ws) rs m = interleave sch ws rs c := by
  induction cs with
  | nil =>
    intro sch c ws rs m
    simpa using interleave_writes sch c ws rs m
  | cons c0 cs ih =>
    intro sch c ws rs m
    have hrep : List.replicate (6 * ((c0 :: cs).length + 1)) true
        = List.replicate 6 true ++ List.replicate (6 * (cs.length + 1)) true := by
      rw [← List.replicate_add]
      congr 1
      simp only [List.length_cons]
      omega
    rw [hrep, List.append_assoc, List.cons_append, List.flatMap_cons, List.append_assoc,
      interleave_writes]
    exact ih sch c ws rs c0

/-- C9, amended: whatever the globals held before, once `sensorTask` has completed
`readMPU6050` for the captures `cs` and then `c` (six assignments each), if
`networkTask` then does its six reads with no assignment of `sensorTask` in between,
the six values of the record are those of `c`, the last completed capture. -/
theorem handoff_whole_when_not_interleaved (m0 : Sensors) (cs : List Sensors) (c : Sensors)
    (later : List (Field × Int)) (sch : List Bool) :
    interleave (List.replicate (6 * (cs.length + 1)) true ++ (List.replicate 6 false ++ sch))
      ((cs ++ [c]).flatMap readMPU6050_writes ++ later) sendData_reads m0 = recordOf c := by
  rw [interleave_captures, interleave_reads]

end Tcp

/-! ## Theorems about `main_server.cpp` -/

namespace Udp

/-- C5: whatever the prior session state, a datagram from address `A` whose payload is
exactly the 20 bytes `DISCOVER_VIBS_SERVER`, received when `millis()` reads `now`, makes
`checkForDiscovery` set `clientIP = A`, `clientConnected = true` and
`lastDiscoveryTime = now` and send exactly one datagram, the 10 bytes `SERVER_ACK`, to
`A` on the server port; `dataBuffer` (and `count`) are left as they were. -/
theorem checkForDiscovery_handshake (s : State) (A now : Nat) :
    (bytesOf "DISCOVER_VIBS_SERVER").length = 20 ∧
    (checkForDiscovery s (some { remoteIP := A, payload := bytesOf "DISCOVER_VIBS_SERVER" })
      now).1.clientIP = A ∧
    (checkForDiscovery s (some { remoteIP := A, payload := bytesOf "DISCOVER_VIBS_SERVER" })
      now).1.clientConnected = true ∧
    (checkForDiscovery s (some { remoteIP := A, payload := bytesOf "DISCOVER_VIBS_SERVER" })
      now).1.lastDiscoveryTime = now ∧
    (checkForDiscovery s (some { remoteIP := A, payload := bytesOf "DISCOVER_VIBS_SERVER" })
      now).2 = [{ ip := A, port := 12345, payload := "SERVER_ACK" }] ∧
    "SERVER_ACK".length = 10 ∧
    (checkForDiscovery s (some { remoteIP := A, payload := bytesOf "DISCOVER_VIBS_SERVER" })
      now).1.dataBuffer = s.dataBuffer ∧
    (checkForDiscovery s (some { remoteIP := A, payload := bytesOf "DISCOVER_VIBS_SERVER" })
      now).1.count = s.count := by
  have h : checkForDiscovery s
      (some { remoteIP := A, payload := bytesOf "DISCOVER_VIBS_SERVER" }) now
      = ({ s with clientIP := A, clientConnected := true, lastDiscoveryTime := now },
         [{ ip := A, port := serverPort, payload := "SERVER_ACK" }]) := by
    simp only [checkForDiscovery]
    rw [if_pos (by decide), if_pos (by decide), if_pos (by decide)]
  rw [h]
  exact ⟨by decide, rfl, rfl, rfl, rfl, by decide, rfl, rfl⟩

theorem checkForDiscovery_keeps (s : State) (pkt : Option Packet) (now : Nat) :
    (checkForDiscovery s pkt now).1.dataBuffer = s.dataBuffer ∧
    (checkForDiscovery s pkt now).1.count = s.count ∧
    (checkForDiscovery s pkt now).1.isSending = s.isSending := by
  unfold checkForDiscovery
  cases pkt with
  | none => exact ⟨rfl, rfl, rfl⟩
  | some p =>
    simp only
    split_ifs <;> exact ⟨rfl, rfl, rfl⟩

theorem checkForDiscovery_quiet (s : State) (pkt : Option Packet) (now : Nat)
    (h : discoveryReceived pkt = false) : checkForDiscovery s pkt now = (s, []) := by
  unfold checkForDiscovery
  cases pkt with
  | none => rfl
  | some p =>
    have hp : ¬ cString (p.payload.take 31) = bytesOf "DISCOVER_VIBS_SERVER" := by
      simpa [discoveryReceived] using h
    simp only
    split_ifs <;> rfl

theorem checkClientStatus_keeps (s : State) (stations now : Nat) :
    (checkClientStatus s stations now).dataBuffer = s.dataBuffer ∧
    (checkClientStatus s stations now).count = s.count ∧
    (checkClientStatus s stations now).clientIP = s.clientIP := by
  unfold checkClientStatus
  split_ifs <;> exact ⟨rfl, rfl, rfl⟩

/-- The three ways an iteration of `sendDataTask` can treat the batch. -/
theorem sendDataTask_iter_cases (s : State) (i : IterIn) :
    ((sendDataTask_iter s i).2.appended = none ∧ (sendDataTask_iter s i).2.packets = [] ∧
      (sendDataTask_iter s i).1.dataBuffer = s.dataBuffer ∧
      (sendDataTask_iter s i).1.count = s.count) ∨
    ((sendDataTask_iter s i).2.appended = some (tupleOf i) ∧
      ((s.count + 1 < 10 ∧ (sendDataTask_iter s i).2.packets = [] ∧
        (sendDataTask_iter s i).1.dataBuffer = s.dataBuffer ++ tupleOf i ∧
        (sendDataTask_iter s i).1.count = s.count + 1) ∨
       (10 ≤ s.count + 1 ∧
        (sendDataTask_iter s i).2.packets =
          [Datagram.mk (sendDataTask_iter s i).1.clientIP 12345 (s.dataBuffer ++ tupleOf i)] ∧
        (sendDataTask_iter s i).1.dataBuffer = "" ∧
        (sendDataTask_iter s i).1.count = 0))) := by
  obtain ⟨hb1, hc1, _⟩ := checkForDiscovery_keeps s i.packet i.millisDiscovery
  obtain ⟨hb2, hc2, _⟩ := checkClientStatus_keeps
    (checkForDiscovery s i.packet i.millisDiscovery).1 i.stations i.millisStatus
  rw [hb1] at hb2
  rw [hc1] at hc2
  unfold sendDataTask_iter
  simp only
  generalize checkClientStatus (checkForDiscovery s i.packet i.millisDiscovery).1
    i.stations i.millisStatus = s2 at hb2 hc2 ⊢
  obtain ⟨a1, a2, a3, g1, g2, g3, ip, conn, sending, ldt, buf, lt, cnt⟩ := s2
  simp only at hb2 hc2
  subst hb2 hc2
  by_cases h : (10 : Int) ≤ s.count + 1
  · cases conn <;> cases sending <;>
      simp only [readMPU6050, tupleText, tupleOf, BATCH_SIZE, Bool.false_eq_true, if_false,
        if_true, Bool.not_true, Bool.not_false, ge_iff_le, if_pos h, serverPort] <;>
      first
      | exact Or.inl ⟨trivial, trivial, trivial, trivial⟩
      | (refine Or.inr ⟨trivial, Or.inr ⟨h, ?_⟩⟩; split_ifs <;> simp)
  · have hlt : s.count + 1 < 10 := by omega
    cases conn <;> cases sending <;>
      simp only [readMPU6050, tupleText, tupleOf, BATCH_SIZE, Bool.false_eq_true, if_false,
        if_true, Bool.not_true, Bool.not_false, ge_iff_le, if_neg h, serverPort] <;>
      first
      | exact Or.inl ⟨trivial, trivial, trivial, trivial⟩
      | (refine Or.inr ⟨trivial, Or.inl ⟨hlt, ?_⟩⟩; split_ifs <;> simp)

theorem concat_append (a b : List String) : concat (a ++ b) = concat a ++ concat b := by
  induction a with
  | nil => simp [concat]
  | cons t ts ih => simp [concat, ih, String.append_assoc]

theorem concat_singleton (t : String) : concat [t] = t := by
  simp [concat]

/-- The batch invariant along a run: with `pend` the tuples already in `dataBuffer`,
the tuples split into whole batches of 10, each sent as one packet, and a remainder
that is what `dataBuffer` holds at the end. -/
theorem batch_invariant (ins : List IterIn) :
    ∀ (s : State) (pend : List String), s.dataBuffer = concat pend →
      s.count = (pend.length : Int) → pend.length < 10 →
      ∃ (batches : List (List String)) (rest : List String),
        pend ++ (sendDataTask s ins).2.filterMap (fun o => o.appended) = batches.flatten ++ rest ∧
        (∀ b ∈ batches, b.length = 10) ∧ rest.length < 10 ∧
        ((sendDataTask s ins).2.flatMap (fun o => o.packets)).map (fun d => d.payload)
          = batches.map concat ∧
        (sendDataTask s ins).1.dataBuffer = concat rest ∧
        (sendDataTask s ins).1.count = (rest.length : Int) := by
  induction ins with
  | nil =>
    intro s pend hb hc hl
    exact ⟨[], pend, by simp [sendDataTask], by simp, hl, by simp [sendDataTask], hb, hc⟩
  | cons i rest ih =>
    intro s pend hb hc hl
    rcases sendDataTask_iter_cases s i with ⟨ha, hp, hbuf, hcnt⟩ | ⟨ha, hcase⟩
    · obtain ⟨bs, r, h1, h2, h3, h4, h5, h6⟩ :=
        ih (sendDataTask_iter s i).1 pend (hbuf.trans hb) (hcnt.trans hc) hl
      refine ⟨bs, r, ?_, h2, h3, ?_, h5, h6⟩
      · simpa [sendDataTask, ha] using h1
      · simpa [sendDataTask, hp] using h4
    · rcases hcase with ⟨hlt, hp, hbuf, hcnt⟩ | ⟨hge, hp, hbuf, hcnt⟩
      · obtain ⟨bs, r, h1, h2, h3, h4, h5, h6⟩ :=
          ih (sendDataTask_iter s i).1 (pend ++ [tupleOf i])
            (by rw [hbuf, hb, concat_append, concat_singleton])
            (by rw [hcnt, hc]; simp)
            (by simp only [List.length_append, List.length_singleton]; omega)
        refine ⟨bs, r, ?_, h2, h3, ?_, h5, h6⟩
        · simpa [sendDataTask, ha] using h1
        · simpa [sendDataTask, hp] using h4
      · obtain ⟨bs, r, h1, h2, h3, h4, h5, h6⟩ :=
          ih (sendDataTask_iter s i).1 [] (by rw [hbuf]; rfl) (by rw [hcnt]; rfl) (by simp)
        refine ⟨(pend ++ [tupleOf i]) :: bs, r, ?_, ?_, h3, ?_, h5, h6⟩
        · simp only [List.nil_append] at h1
          simp [sendDataTask, ha, h1]
        · intro b hbm
          rcases List.mem_cons.mp hbm with rfl | hbm
          · simp only [List.length_append, List.length_singleton]; omega
          · exact h2 b hbm
        · simp only [sendDataTask, List.flatMap_cons, hp, List.map_append, List.map_cons,
            List.map_nil, h4, List.singleton_append]
          rw [hb, concat_append, concat_singleton]

theorem sendDataTask_length (ins : List IterIn) :
    ∀ s : State, (sendDataTask s ins).2.length = ins.length := by
  induction ins with
  | nil => intro s; rfl
  | cons i rest ih => intro s; simp [sendDataTask, ih]

theorem sendDataTask_tuples (ins : List IterIn) :
    ∀ s : State, List.Forall₂
      (fun i o => o.appended = none ∨ o.appended = some (tupleOf i)) ins (sendDataTask s ins).2 := by
  induction ins with
  | nil => intro s; exact List.Forall₂.nil
  | cons i rest ih =>
    intro s
    refine List.Forall₂.cons ?_ (ih _)
    rcases sendDataTask_iter_cases s i with ⟨ha, _⟩ | ⟨ha, _⟩
    · exact Or.inl ha
    · exact Or.inr ha

/-- C6: started with an empty `dataBuffer` and `count = 0`, after any run of
`sendDataTask` (whatever datagrams, station counts and clock readings arrive) the
tuples appended so far split into batches of exactly 10 followed by fewer than 10
pending tuples; the data packets sent are, in order, the concatenations of those
batches; `dataBuffer` is the concatenation of the pending tuples and `count` their
number; every appended tuple is `<GyX>,<GyY>,<GyZ>,<millis>` with a line feed, for its
own iteration; and the next iteration sends a data packet exactly when it appends a
tuple to 9 pending ones, in which case it sends one packet, the 10 tuples, and leaves
`dataBuffer` empty and `count = 0`. -/
theorem sendDataTask_batches (s0 : State) (ins : List IterIn)
    (hbuf : s0.dataBuffer = "") (hcount : s0.count = 0) :
    ∃ (batches : List (List String)) (rest : List String),
      (sendDataTask s0 ins).2.filterMap (fun o => o.appended) = batches.flatten ++ rest ∧
      (∀ b ∈ batches, b.length = 10) ∧ rest.length < 10 ∧
      ((sendDataTask s0 ins).2.flatMap (fun o => o.packets)).map (fun d => d.payload)
        = batches.map concat ∧
      (sendDataTask s0 ins).1.dataBuffer = concat rest ∧
      (sendDataTask s0 ins).1.count = (rest.length : Int) ∧
      List.Forall₂ (fun i o => o.appended = none ∨ o.appended = some (tupleOf i))
        ins (sendDataTask s0 ins).2 ∧
      ∀ i : IterIn,
        ((sendDataTask_iter (sendDataTask s0 ins).1 i).2.packets ≠ [] ↔
          ((sendDataTask_iter (sendDataTask s0 ins).1 i).2.appended = some (tupleOf i) ∧
            rest.length = 9)) ∧
        ((sendDataTask_iter (sendDataTask s0 ins).1 i).2.packets ≠ [] →
          (sendDataTask_iter (sendDataTask s0 ins).1 i).2.packets =
            [Datagram.mk (sendDataTask_iter (sendDataTask s0 ins).1 i).1.clientIP 12345
              (concat (rest ++ [tupleOf i]))] ∧
          (sendDataTask_iter (sendDataTask s0 ins).1 i).1.dataBuffer = "" ∧
          (sendDataTask_iter (sendDataTask s0 ins).1 i).1.count = 0) := by
  obtain ⟨bs, r, h1, h2, h3, h4, h5, h6⟩ :=
    batch_invariant ins s0 [] (by rw [hbuf]; rfl) (by rw [hcount]; rfl) (by simp)
  refine ⟨bs, r, by simpa using h1, h2, h3, h4, h5, h6, sendDataTask_tuples ins s0, ?_⟩
  intro i
  rcases sendDataTask_iter_cases (sendDataTask s0 ins).1 i with
    ⟨ha, hp, _, _⟩ | ⟨ha, ⟨hlt, hp, _, _⟩ | ⟨hge, hp, hbuf', hcnt'⟩⟩
  · rw [ha, hp]; simp
  · rw [ha, hp]
    have : r.length ≠ 9 := by omega
    simp [this]
  · rw [ha, hp, hbuf', hcnt', h5, concat_append, concat_singleton]
    have : r.length = 9 := by omega
    simp [this]

/-- Witness of C6: eleven iterations with an active client, from an empty batch. -/
theorem sendDataTask_batches_witness :
    ∃ (batches : List (List String)) (rest : List String),
      (sendDataTask { activeSession with dataBuffer := "", count := 0 }
        ((List.range 11).map (fun n => quietIn (50001 + n)))).2.filterMap (fun o => o.appended)
          = batches.flatten ++ rest ∧
      (∀ b ∈ batches, b.length = 10) ∧ rest.length < 10 ∧
      ((sendDataTask { activeSession with dataBuffer := "", count := 0 }
        ((List.range 11).map (fun n => quietIn (50001 + n)))).2.flatMap
          (fun o => o.packets)).map (fun d => d.payload) = batches.map concat := by
  obtain ⟨bs, r, h1, h2, h3, h4, _⟩ :=
    sendDataTask_batches { activeSession with dataBuffer := "", count := 0 }
      ((List.range 11).map (fun n => quietIn (50001 + n))) rfl rfl
  exact ⟨bs, r, h1, h2, h3, h4⟩

theorem sendDataTask_iter_idle (s : State) (i : IterIn) (hidle : s.clientConnected = false)
    (hnd : discoveryReceived i.packet = false) :
    (sendDataTask_iter s i).1.clientConnected = false ∧
    (sendDataTask_iter s i).1.isSending = false ∧
    (sendDataTask_iter s i).2.appended = none ∧ (sendDataTask_iter s i).2.packets = [] ∧
    (sendDataTask_iter s i).2.replies = [] := by
  unfold sendDataTask_iter
  rw [checkForDiscovery_quiet s i.packet i.millisDiscovery hnd]
  simp only [checkClientStatus, hidle, Bool.false_and, Bool.false_eq_true, if_false]
  split_ifs <;> simp_all

theorem sendDataTask_idle (ins : List IterIn) :
    ∀ s : State, s.clientConnected = false → (∀ j ∈ ins, discoveryReceived j.packet = false) →
      (sendDataTask s ins).1.clientConnected = false ∧
      ∀ o ∈ (sendDataTask s ins).2, o.packets = [] ∧ o.appended = none := by
  induction ins with
  | nil => intro s hs _; exact ⟨hs, fun o ho => absurd ho (List.not_mem_nil o)⟩
  | cons i rest ih =>
    intro s hs hnd
    obtain ⟨h1, _, h3, h4, _⟩ := sendDataTask_iter_idle s i hs (hnd i (List.mem_cons_self i rest))
    obtain ⟨h5, h6⟩ := ih (sendDataTask_iter s i).1 h1
      (fun j hj => hnd j (List.mem_cons_of_mem i hj))
    refine ⟨h5, fun o ho => ?_⟩
    rcases List.mem_cons.mp ho with rfl | ho
    · exact ⟨h4, h3⟩
    · exact h6 o ho

/-- C7: in an iteration of `sendDataTask` that starts ACTIVE (`clientConnected = true`)
and receives no discovery request: if no station is associated or
`(now - lastDiscoveryTime) mod 2^32 > 10000`, with `now` the reading of `millis()` in
`checkClientStatus`, the iteration ends with `clientConnected = false` and
`isSending = false`, appends no tuple and sends no data packet; if a station is
associated and the difference is at most 10000, `clientConnected` stays true. And from
any IDLE state, over any run of iterations that receive no discovery request, no tuple
is appended and no data packet is sent. -/
theorem discovery_timeout (s : State) (i : IterIn) (s0 : State) (ins : List IterIn)
    (hactive : s.clientConnected = true) (hnd : discoveryReceived i.packet = false)
    (hidle : s0.clientConnected = false) (hquiet : ∀ j ∈ ins, discoveryReceived j.packet = false) :
    ((i.stations = 0 ∨
        ((i.millisStatus : Int) - (s.lastDiscoveryTime : Int)) % 4294967296 > 10000) →
      (sendDataTask_iter s i).1.clientConnected = false ∧
      (sendDataTask_iter s i).1.isSending = false ∧
      (sendDataTask_iter s i).2.appended = none ∧
      (sendDataTask_iter s i).2.packets = [] ∧
      (sendDataTask_iter s i).1.dataBuffer = s.dataBuffer) ∧
    ((i.stations > 0 ∧
        ((i.millisStatus : Int) - (s.lastDiscoveryTime : Int)) % 4294967296 ≤ 10000) →
      (sendDataTask_iter s i).1.clientConnected = true) ∧
    ((sendDataTask s0 ins).1.clientConnected = false ∧
      ∀ o ∈ (sendDataTask s0 ins).2, o.packets = [] ∧ o.appended = none) := by
  refine ⟨?_, ?_, sendDataTask_idle ins s0 hidle hquiet⟩
  · intro hto
    have hst : checkClientStatus s i.stations i.millisStatus
        = { s with clientConnected := false,
                   isSending := if s.isSending then false else s.isSending } := by
      unfold checkClientStatus
      rw [if_pos]
      simp only [hactive, Bool.true_and, Bool.or_eq_true, beq_iff_eq, decide_eq_true_eq,
        sub32, DISCOVERY_TIMEOUT]
      rcases hto with h | h
      · exact Or.inl h
      · exact Or.inr (by omega)
    unfold sendDataTask_iter
    rw [checkForDiscovery_quiet s i.packet i.millisDiscovery hnd]
    simp only [hst]
    cases s.isSending <;> simp
  · intro hok
    have hst : checkClientStatus s i.stations i.millisStatus = s := by
      unfold checkClientStatus
      rw [if_neg]
      simp only [hactive, Bool.true_and, Bool.or_eq_true, beq_iff_eq, decide_eq_true_eq,
        sub32, DISCOVERY_TIMEOUT]
      omega
    unfold sendDataTask_iter
    rw [checkForDiscovery_quiet s i.packet i.millisDiscovery hnd]
    simp only [hst, hactive, if_true]
    split_ifs <;> simp [readMPU6050, hactive]

/-- Witness of C7: 10001 ms after the last discovery request the session goes IDLE;
an IDLE session stays silent over two quiet iterations. -/
theorem discovery_timeout_witness :
    (sendDataTask_iter activeSession (quietIn 60001)).1.clientConnected = false ∧
    (sendDataTask_iter activeSession (quietIn 60001)).2.packets = [] ∧
    (sendDataTask_iter activeSession (quietIn 60000)).1.clientConnected = true ∧
    ∀ o ∈ (sendDataTask { activeSession with clientConnected := false }
        [quietIn 60002, quietIn 60003]).2, o.packets = [] ∧ o.appended = none := by
  have hq : ∀ j ∈ [quietIn 60002, quietIn 60003], discoveryReceived j.packet = false := by
    intro j hj
    simp only [List.mem_cons, List.mem_singleton, List.not_mem_nil, or_false] at hj
    rcases hj with rfl | rfl <;> rfl
  have h1 := discovery_timeout activeSession (quietIn 60001)
    { activeSession with clientConnected := false } [quietIn 60002, quietIn 60003]
    rfl rfl rfl hq
  have h2 := discovery_timeout activeSession (quietIn 60000)
    { activeSession with clientConnected := false } [quietIn 60002, quietIn 60003]
    rfl rfl rfl hq
  obtain ⟨a1, _, _, a4, _⟩ := h1.1 (Or.inr (by decide))
  exact ⟨a1, a4, h2.2.1 ⟨by decide, by decide⟩, h1.2.2.2⟩

end Udp
